import Mathlib

/-!
Shallow embedding of the cog3pio Cloud-Optimized GeoTIFF reader core
(`src/io/geotiff.rs` CPU path and `src/io/nvtiff.rs` CUDA path).

The TIFF container library and the nvTIFF native library are external
collaborators: each call into them is modelled as a field of an input state
recording what that call would return (a value or a library error).  Rust
`f64` tag values and pixel coordinates are modelled as exact rationals `ℚ`.
Rust panics (`unimplemented!`, slice-index panics, `unwrap` on `None`,
integer division by zero) are modelled explicitly by a `RustResult.panic`
outcome, distinct from returned typed errors.
-/

/-- The ten primitive element types produced by `tiff::decoder::DecodingResult`
and carried by DLPack tensors in the CPU path. -/
inductive DType where
  | u8 | u16 | u32 | u64 | i8 | i16 | i32 | i64 | f32 | f64
deriving DecidableEq

/-- `tiff::decoder::DecodingResult`: the decoded flat pixel buffer, one of ten
primitive-typed vectors.  Unsigned integer variants carry `Nat` elements,
signed variants `Int`, float variants exact `ℚ`. -/
inductive DecodingResult where
  | U8 (data : List Nat)
  | U16 (data : List Nat)
  | U32 (data : List Nat)
  | U64 (data : List Nat)
  | I8 (data : List Int)
  | I16 (data : List Int)
  | I32 (data : List Int)
  | I64 (data : List Int)
  | F32 (data : List ℚ)
  | F64 (data : List ℚ)
deriving DecidableEq

/-- The element dtype of a decoded buffer (the `InferDataType` impl of the
corresponding Rust primitive type). -/
def DecodingResult.dtype : DecodingResult → DType
  | .U8 _ => .u8
  | .U16 _ => .u16
  | .U32 _ => .u32
  | .U64 _ => .u64
  | .I8 _ => .i8
  | .I16 _ => .i16
  | .I32 _ => .i32
  | .I64 _ => .i64
  | .F32 _ => .f32
  | .F64 _ => .f64

/-- Number of elements in the decoded flat buffer. -/
def DecodingResult.length : DecodingResult → Nat
  | .U8 d => d.length
  | .U16 d => d.length
  | .U32 d => d.length
  | .U64 d => d.length
  | .I8 d => d.length
  | .I16 d => d.length
  | .I32 d => d.length
  | .I64 d => d.length
  | .F32 d => d.length
  | .F64 d => d.length

/-- `tiff::ColorType`. -/
inductive ColorType where
  | Gray (bitDepth : Nat)
  | RGB (bitDepth : Nat)
  | Palette (bitDepth : Nat)
  | GrayA (bitDepth : Nat)
  | RGBA (bitDepth : Nat)
  | CMYK (bitDepth : Nat)
  | YCbCr (bitDepth : Nat)
  | Multiband (bitDepth : Nat) (numSamples : Nat)
deriving DecidableEq

/-- The `tiff::TiffFormatError` variants reachable from the embedded code. -/
inductive TiffFormatError where
  | InvalidTag
  | InconsistentSizesEncountered
deriving DecidableEq

/-- The `tiff::TiffUnsupportedError` variants reachable from the embedded code. -/
inductive TiffUnsupportedError where
  | UnsupportedColorType (colorType : ColorType)
deriving DecidableEq

/-- `tiff::TiffError` (the variants reachable from the embedded code). -/
inductive TiffError where
  | FormatError (e : TiffFormatError)
  | UnsupportedError (e : TiffUnsupportedError)
  | IoError (msg : String)
deriving DecidableEq

/-- Outcome of a Rust call: a returned value, a returned typed error, or an
abort-style failure (`panic!` / `unimplemented!` / failed `unwrap`). -/
inductive RustResult (ε α : Type) where
  | ok (val : α)
  | err (e : ε)
  | panic (msg : String)
deriving DecidableEq

/-- Whether a call outcome is an abort-style failure. -/
def RustResult.isPanic {ε α : Type} : RustResult ε α → Bool
  | .panic _ => true
  | _ => false

/-- Whether a call outcome is a returned typed error. -/
def RustResult.isErr {ε α : Type} : RustResult ε α → Bool
  | .err _ => true
  | _ => false

deriving instance DecidableEq for Except

/-- State of an open `CogReader`: what each call into the `tiff` decoder
collaborator returns for the wrapped stream.  `dimensions` is `(width, height)`.
The `getTag…` fields record `Decoder::get_tag_f64_vec` for the three geo tags
(`.error` when the tag is absent or unreadable). -/
structure CogState where
  colortype : Except TiffError ColorType
  dimensions : Except TiffError (Nat × Nat)
  readImage : Except TiffError DecodingResult
  getTagModelTransformation : Except TiffError (List ℚ)
  getTagModelPixelScale : Except TiffError (List ℚ)
  getTagModelTiepoint : Except TiffError (List ℚ)
deriving DecidableEq

/-- `CogReader::num_samples`: band count from the parsed color type. -/
def CogReader.num_samples (self : CogState) : Except TiffError Nat :=
  match self.colortype with
  | .error e => .error e
  | .ok colorType =>
    match colorType with
    | .Multiband _bitDepth numSamples => .ok numSamples
    | .Gray _ => .ok 1
    | .RGB _ => .ok 3
    | other => .error (.UnsupportedError (.UnsupportedColorType other))

/-- A host DLPack tensor (`dlpark::SafeManagedTensorVersioned` over host
memory): shape plus the owned flat buffer, whose variant carries the dtype. -/
structure Tensor where
  shape : List Nat
  data : DecodingResult
deriving DecidableEq

/-- `shape_vec_to_tensor`: `Array3::from_shape_vec(shape, vec)` succeeds exactly
when `vec.len()` equals the product of the three dimensions, else it is mapped
to `TiffFormatError::InconsistentSizesEncountered`; the tensor wraps the buffer
unchanged, in row-major order.  `mk` plays the role of the `T: InferDataType`
bound, injecting the typed vector into the decoded-buffer union. -/
def shape_vec_to_tensor {α : Type} (shape : Nat × Nat × Nat) (vec : List α)
    (mk : List α → DecodingResult) : Except TiffError Tensor :=
  if vec.length = shape.1 * shape.2.1 * shape.2.2 then
    .ok { shape := [shape.1, shape.2.1, shape.2.2], data := mk vec }
  else
    .error (.FormatError .InconsistentSizesEncountered)

/-- `CogReader::dlpack`: count bands, read dimensions, decode the image, then
reshape the flat buffer to `(num_bands, height, width)` per primitive variant. -/
def CogReader.dlpack (self : CogState) : Except TiffError Tensor :=
  match CogReader.num_samples self with
  | .error e => .error e
  | .ok num_bands =>
    match self.dimensions with
    | .error e => .error e
    | .ok (width, height) =>
      match self.readImage with
      | .error e => .error e
      | .ok decodeResult =>
        let shape := (num_bands, height, width)
        match decodeResult with
        | .U8 img_data => shape_vec_to_tensor shape img_data .U8
        | .U16 img_data => shape_vec_to_tensor shape img_data .U16
        | .U32 img_data => shape_vec_to_tensor shape img_data .U32
        | .U64 img_data => shape_vec_to_tensor shape img_data .U64
        | .I8 img_data => shape_vec_to_tensor shape img_data .I8
        | .I16 img_data => shape_vec_to_tensor shape img_data .I16
        | .I32 img_data => shape_vec_to_tensor shape img_data .I32
        | .I64 img_data => shape_vec_to_tensor shape img_data .I64
        | .F32 img_data => shape_vec_to_tensor shape img_data .F32
        | .F64 img_data => shape_vec_to_tensor shape img_data .F64

/-- `geo::AffineTransform` coefficients; `c` is `xoff()` and `f` is `yoff()` in
the geo crate's accessor naming. -/
structure AffineTransform where
  a : ℚ
  b : ℚ
  c : ℚ
  d : ℚ
  e : ℚ
  f : ℚ
deriving DecidableEq

/-- `CogReader::transform`: derive the affine transform from geo tags.  A
readable `ModelTransformationTag` hits `unimplemented!` (an abort, not a typed
error).  Note `pixel_scale[0..3]` / `tie_points[0..6]` panic when the tag
vector is shorter than 3 / 6 elements, so the `let … else` arms returning
`InvalidTag` are unreachable at runtime; the embedding models the slice-index
panic. -/
def CogReader.transform (self : CogState) : RustResult TiffError AffineTransform :=
  match self.getTagModelTransformation with
  | .ok _model_transformation => .panic "Non-zero rotation is not handled yet"
  | .error _ =>
    -- (x_rotation, y_rotation) = (0.0, 0.0)
    match self.getTagModelPixelScale with
    | .error e => .err e
    | .ok pixel_scale =>
      match pixel_scale with
      | x_scale :: y_scale :: _z_scale :: _ =>
        match self.getTagModelTiepoint with
        | .error e => .err e
        | .ok tie_points =>
          match tie_points with
          | _i :: _j :: _k :: x_origin :: y_origin :: _z_origin :: _ =>
            .ok { a := x_scale, b := 0, c := x_origin, d := 0, e := -y_scale, f := y_origin }
          | _ => .panic "range end index 6 out of range"
      | _ => .panic "range end index 3 out of range"

/-- `ndarray::Array::range(start, stop, step)` over `f64`, on exact rationals:
element count `ceil((stop - start) / step)`, element `i` being
`start + step * i`.  With `f64`, a zero step yields NaN or infinity and a
negative count yields no `usize`, making the internal `to_usize` unwrap panic;
those are the two panic arms. -/
def arrayRange (start stop step : ℚ) : RustResult TiffError (List ℚ) :=
  if step = 0 then .panic "Converting number to integer failed"
  else
    let steps : ℤ := ⌈(stop - start) / step⌉
    if steps < 0 then .panic "Converting number to integer failed"
    else .ok ((List.range steps.toNat).map fun i : Nat => start + step * (i : ℚ))

/-- `CogReader::xy_coords`: per-pixel-center coordinate axes derived from the
affine transform and the image dimensions. -/
def CogReader.xy_coords (self : CogState) : RustResult TiffError (List ℚ × List ℚ) :=
  match CogReader.transform self with
  | .panic msg => .panic msg
  | .err e => .err e
  | .ok transform =>
    let x_res : ℚ := transform.a
    let y_res : ℚ := transform.e
    let x_origin : ℚ := transform.c + x_res / 2
    let y_origin : ℚ := transform.f + y_res / 2
    match self.dimensions with
    | .error e => .err e
    | .ok (x_pixels, y_pixels) =>
      let x_end : ℚ := x_origin + x_res * (x_pixels : ℚ)
      let y_end : ℚ := y_origin + y_res * (y_pixels : ℚ)
      match arrayRange x_origin x_end x_res with
      | .panic msg => .panic msg
      | .err e => .err e
      | .ok x_coords =>
        match arrayRange y_origin y_end y_res with
        | .panic msg => .panic msg
        | .err e => .err e
        | .ok y_coords => .ok (x_coords, y_coords)

/-- An `ndarray::Array3`: dimensions `(channels, height, width)` plus the
row-major flat element buffer. -/
structure Array3 where
  dim : Nat × Nat × Nat
  data : DecodingResult
deriving DecidableEq

/-- `read_geotiff::<T>`: open a `CogReader`, decode to a DLPack tensor, then
view the tensor as elements of type `T` (`ArrayViewD::<T>::try_from` succeeds
exactly when the tensor dtype equals `T`) and reshape the view to
`(num_bands, height, width)` (succeeds exactly when the element counts agree). -/
def read_geotiff (self : CogState) (T : DType) : Except TiffError Array3 :=
  match CogReader.dlpack self with
  | .error e => .error e
  | .ok tensor =>
    match CogReader.num_samples self with
    | .error e => .error e
    | .ok num_bands =>
      match self.dimensions with
      | .error e => .error e
      | .ok (width, height) =>
        if tensor.data.dtype = T then
          if tensor.data.length = num_bands * height * width then
            .ok { dim := (num_bands, height, width), data := tensor.data }
          else .error (.IoError "incompatible shapes")
        else .error (.IoError "dtype mismatch")

/-! ### GPU (nvTIFF) path, `src/io/nvtiff.rs` -/

/-- `dlpark::ffi::DataTypeCode` (the codes reachable from the embedded code). -/
inductive DataTypeCode where
  | UInt
  | Int
  | Float
deriving DecidableEq

/-- `dlpark::ffi::DataType`: dtype code, element width in bits, lanes. -/
structure DataType where
  code : DataTypeCode
  bits : Nat
  lanes : Nat
deriving DecidableEq

/-- `DataType::U8` through `DataType::F64` constants used in the dtype match. -/
def DataType.U8 : DataType := ⟨.UInt, 8, 1⟩

def DataType.U16 : DataType := ⟨.UInt, 16, 1⟩

def DataType.U32 : DataType := ⟨.UInt, 32, 1⟩

def DataType.U64 : DataType := ⟨.UInt, 64, 1⟩

def DataType.I8 : DataType := ⟨.Int, 8, 1⟩

def DataType.I16 : DataType := ⟨.Int, 16, 1⟩

def DataType.I32 : DataType := ⟨.Int, 32, 1⟩

def DataType.I64 : DataType := ⟨.Int, 64, 1⟩

def DataType.F32 : DataType := ⟨.Float, 32, 1⟩

def DataType.F64 : DataType := ⟨.Float, 64, 1⟩

/-- `nvtiffSampleFormat` codes (TIFF SampleFormat tag values). -/
def NVTIFF_SAMPLEFORMAT_UINT : Nat := 1

def NVTIFF_SAMPLEFORMAT_INT : Nat := 2

def NVTIFF_SAMPLEFORMAT_IEEEFP : Nat := 3

/-- `nvtiffFileInfo`: file-level metadata filled in by
`nvtiffStreamGetFileInfo`.  `sample_format` is the per-sample format code
array; only entry 0 is read. -/
structure NvFileInfo where
  image_width : Nat
  image_height : Nat
  samples_per_pixel : Nat
  bits_per_pixel : Nat
  sample_format : List Nat
deriving DecidableEq

/-- Environment for `CudaCogReader::new`: the status codes each native call
would return (0 is success), the file info the metadata query would fill in,
and whether the device allocation would succeed. -/
structure NvTiffEnv where
  streamCreate : Nat
  streamParse : Nat
  getFileInfo : Except Nat NvFileInfo
  allocOk : Bool
deriving DecidableEq

/-- A `cudarc::driver::CudaSlice<u8>`: a device allocation of `len` bytes. -/
structure CudaSlice where
  len : Nat
deriving DecidableEq

/-- Device interactions performed by the GPU reader. -/
inductive DeviceEffect where
  | allocZeros (numBytes : Nat)
  | decodeImage
deriving DecidableEq

/-- The `CudaCogReader` struct: total device buffer size in bytes, inferred
dtype, and the owned device allocation. -/
structure CudaCogReader where
  num_bytes : Nat
  dtype : DataType
  cuda_slice : CudaSlice
deriving DecidableEq

/-- The Step-3a dtype-code match in `CudaCogReader::new`: `sample_format[0]`
mapped to a DLPack dtype code, `none` standing for the `unimplemented!` arm. -/
def dtypeCodeOfSampleFormat (sample_format : Nat) : Option DataTypeCode :=
  if sample_format = NVTIFF_SAMPLEFORMAT_UINT then some .UInt
  else if sample_format = NVTIFF_SAMPLEFORMAT_INT then some .Int
  else if sample_format = NVTIFF_SAMPLEFORMAT_IEEEFP then some .Float
  else none

/-- `CudaCogReader::new`: create and parse the host-side TIFF stream, extract
file metadata, infer the dtype from `sample_format[0]` and
`bits_per_pixel / samples_per_pixel` (an `unimplemented!` abort for
non-uint/int/float formats, a division-by-zero abort when
`samples_per_pixel == 0`, and a failed `u8::try_from` unwrap when the element
width exceeds 255 bits), then allocate `num_bytes` of zeroed device memory (a
`panic!` abort on allocation failure).  The second component of the result
lists the device interactions performed during construction. -/
def CudaCogReader.new (env : NvTiffEnv) :
    RustResult Nat (CudaCogReader × List DeviceEffect) :=
  if env.streamCreate ≠ 0 then .err env.streamCreate
  else if env.streamParse ≠ 0 then .err env.streamParse
  else
    match env.getFileInfo with
    | .error status => .err status
    | .ok file_info =>
      -- sample_format = file_info.sample_format[0]
      match dtypeCodeOfSampleFormat (file_info.sample_format.headD 0) with
      | none =>
        .panic "non uint/int/float dtypes (e.g. complex int/float) not implemented yet"
      | some code =>
        -- bits = file_info.bits_per_pixel / file_info.samples_per_pixel (u16 division)
        if file_info.samples_per_pixel = 0 then .panic "attempt to divide by zero"
        else if 255 < file_info.bits_per_pixel / file_info.samples_per_pixel then
          .panic "called Option::unwrap on a None value"
        else if env.allocOk then
          -- bytes_per_pixel = bits_per_pixel / 8;
          -- num_bytes = image_width * image_height * bytes_per_pixel
          .ok ({ num_bytes := file_info.image_width * file_info.image_height *
                   (file_info.bits_per_pixel / 8)
               , dtype := { code := code
                          , bits := file_info.bits_per_pixel / file_info.samples_per_pixel
                          , lanes := 1 }
               , cuda_slice := { len := file_info.image_width * file_info.image_height *
                   (file_info.bits_per_pixel / 8) } },
               [.allocZeros (file_info.image_width * file_info.image_height *
                   (file_info.bits_per_pixel / 8))])
        else .panic "Failed to allocate bytes on CUDA device"

/-- Environment for `CudaCogReader::dlpack`: the status codes the native
decoder-creation, support-check and decode calls would return (0 is success). -/
structure NvDecodeEnv where
  decoderCreate : Nat
  checkSupported : Nat
  decodeImage : Nat
deriving DecidableEq

/-- A device-resident DLPack tensor: 1-D shape plus reported dtype. -/
structure CudaTensor where
  shape : List Nat
  dtype : DataType
deriving DecidableEq

/-- `CudaCogReader::dlpack`: create the decoder, check support, invoke the
hardware decode, then reinterpret the byte buffer as `num_bytes / (bits / 8)`
elements of the inferred dtype (a division-by-zero abort when `bits < 8`, and
an `unimplemented!` abort when the dtype is none of the ten primitive kinds).
The second component lists the device interactions performed by the call. -/
def CudaCogReader.dlpack (self : CudaCogReader) (env : NvDecodeEnv) :
    RustResult Nat (CudaTensor × List DeviceEffect) :=
  if env.decoderCreate ≠ 0 then .err env.decoderCreate
  else if env.checkSupported ≠ 0 then .err env.checkSupported
  else if env.decodeImage ≠ 0 then .err env.decodeImage
  else if self.dtype.bits / 8 = 0 then .panic "attempt to divide by zero"
  else
    let len_elem : Nat := self.num_bytes / (self.dtype.bits / 8)
    if self.dtype = DataType.U8 then
      .ok ({ shape := [self.cuda_slice.len], dtype := self.dtype }, [.decodeImage])
    else if self.dtype = DataType.U16 ∨ self.dtype = DataType.U32 ∨
        self.dtype = DataType.U64 ∨ self.dtype = DataType.I8 ∨
        self.dtype = DataType.I16 ∨ self.dtype = DataType.I32 ∨
        self.dtype = DataType.I64 ∨ self.dtype = DataType.F32 ∨
        self.dtype = DataType.F64 then
      .ok ({ shape := [len_elem], dtype := self.dtype }, [.decodeImage])
    else .panic "not implemented"

/-! ### Concrete states used by witnesses and counterexamples -/

/-- A concrete decoder state: 3x2 grayscale u8 image with axis-aligned geo
tags (pixel scale 200 x 200, tiepoint origin (499980, 5300040)). -/
def sampleState : CogState :=
  { colortype := .ok (.Gray 8)
  , dimensions := .ok (3, 2)
  , readImage := .ok (.U8 [10, 20, 30, 40, 50, 60])
  , getTagModelTransformation := .error (.FormatError .InvalidTag)
  , getTagModelPixelScale := .ok [200, 200, 0]
  , getTagModelTiepoint := .ok [0, 0, 0, 499980, 5300040, 0]
  }

/-- `sampleState` with a readable (populated) `ModelTransformationTag`. -/
def rotatedState : CogState :=
  { sampleState with
    getTagModelTransformation := .ok [2, 0, 0, 17, 0, 3, 0, 42, 0, 0, 0, 0, 0, 0, 0, 1] }

/-- `sampleState` with a CMYK color type. -/
def cmykState : CogState :=
  { sampleState with colortype := .ok (.CMYK 8) }

/-- A concrete GPU environment: 2x3 float32 single-band image, all native
calls succeeding. -/
def gpuEnv : NvTiffEnv :=
  { streamCreate := 0
  , streamParse := 0
  , getFileInfo := .ok { image_width := 2, image_height := 3, samples_per_pixel := 1,
                         bits_per_pixel := 32, sample_format := [3, 0, 0, 0] }
  , allocOk := true }

/-- `gpuEnv` with a failing device allocation. -/
def allocFailEnv : NvTiffEnv :=
  { gpuEnv with allocOk := false }

/-- The `CudaCogReader` value constructed from `gpuEnv`. -/
def gpuReader : CudaCogReader :=
  { num_bytes := 24, dtype := DataType.F32, cuda_slice := { len := 24 } }

/-- A decode environment where every native decode call succeeds. -/
def decodeOkEnv : NvDecodeEnv :=
  { decoderCreate := 0, checkSupported := 0, decodeImage := 0 }

/-! ### Helper lemmas -/

/-- A successful `shape_vec_to_tensor` call forces the size equation and fully
determines the tensor. -/
theorem shape_vec_to_tensor_ok_iff {α : Type} (shape : Nat × Nat × Nat) (vec : List α)
    (mk : List α → DecodingResult) (t : Tensor) :
    shape_vec_to_tensor shape vec mk = .ok t ↔
      vec.length = shape.1 * shape.2.1 * shape.2.2 ∧
      t = ⟨[shape.1, shape.2.1, shape.2.2], mk vec⟩ := by
  unfold shape_vec_to_tensor
  split
  · constructor
    · intro h
      cases h
      exact ⟨by assumption, rfl⟩
    · rintro ⟨-, rfl⟩
      rfl
  · constructor
    · intro h
      cases h
    · rintro ⟨h, -⟩
      exact absurd h (by assumption)

/-- Anatomy of a successful `CogReader::dlpack` call. -/
theorem dlpack_ok_spec (s : CogState) (t : Tensor) (h : CogReader.dlpack s = .ok t) :
    ∃ numBands width height decodeResult,
      CogReader.num_samples s = .ok numBands ∧
      s.dimensions = .ok (width, height) ∧
      s.readImage = .ok decodeResult ∧
      t = ⟨[numBands, height, width], decodeResult⟩ ∧
      decodeResult.length = numBands * height * width := by
  unfold CogReader.dlpack at h
  cases hns : CogReader.num_samples s with
  | error e => rw [hns] at h; cases h
  | ok c =>
    rw [hns] at h
    cases hd : s.dimensions with
    | error e => rw [hd] at h; cases h
    | ok wh =>
      obtain ⟨w, hgt⟩ := wh
      rw [hd] at h
      cases hr : s.readImage with
      | error e => rw [hr] at h; cases h
      | ok dr =>
        rw [hr] at h
        cases dr <;>
          · rw [shape_vec_to_tensor_ok_iff] at h
            obtain ⟨hlen, ht⟩ := h
            exact ⟨c, w, hgt, _, rfl, rfl, rfl, ht,
              by simpa [DecodingResult.length] using hlen⟩

/-! ### Claim theorems -/

/-- C1: whenever `CogReader::dlpack` succeeds, the tensor's dtype equals the
primitive type of the decoded source buffer (the buffer is carried over
unchanged — no upconversion or normalization for any of the ten variants) and
its shape is exactly `(band_count, height, width)` over the row-major flat
buffer. -/
theorem dlpack_shape_and_dtype (s : CogState) (t : Tensor)
    (h : CogReader.dlpack s = .ok t) :
    ∃ numBands width height decodeResult,
      CogReader.num_samples s = .ok numBands ∧
      s.dimensions = .ok (width, height) ∧
      s.readImage = .ok decodeResult ∧
      t.shape = [numBands, height, width] ∧
      t.data = decodeResult ∧
      t.data.dtype = decodeResult.dtype := by
  obtain ⟨c, w, hgt, dr, h1, h2, h3, h4, -⟩ := dlpack_ok_spec s t h
  exact ⟨c, w, hgt, dr, h1, h2, h3, by rw [h4], by rw [h4], by rw [h4]⟩

/-- Witness for C1 at a concrete 3x2 grayscale u8 state. -/
theorem dlpack_shape_and_dtype_witness :
    ∃ numBands width height decodeResult,
      CogReader.num_samples sampleState = .ok numBands ∧
      sampleState.dimensions = .ok (width, height) ∧
      sampleState.readImage = .ok decodeResult ∧
      (Tensor.mk [1, 2, 3] (.U8 [10, 20, 30, 40, 50, 60])).shape = [numBands, height, width] ∧
      (Tensor.mk [1, 2, 3] (.U8 [10, 20, 30, 40, 50, 60])).data = decodeResult ∧
      (Tensor.mk [1, 2, 3] (.U8 [10, 20, 30, 40, 50, 60])).data.dtype = decodeResult.dtype :=
  dlpack_shape_and_dtype sampleState ⟨[1, 2, 3], .U8 [10, 20, 30, 40, 50, 60]⟩ rfl

/-- C4: the reshape step succeeds exactly when the buffer's element count
equals `c * h * w`, yielding the untruncated buffer; otherwise it returns the
typed `InconsistentSizesEncountered` format error (no panic is possible: the
return type has no abort outcome). -/
theorem shape_vec_to_tensor_size_check {α : Type} (c h w : Nat) (vec : List α)
    (mk : List α → DecodingResult) :
    (vec.length = c * h * w →
       shape_vec_to_tensor (c, h, w) vec mk = .ok ⟨[c, h, w], mk vec⟩) ∧
    (vec.length ≠ c * h * w →
       shape_vec_to_tensor (c, h, w) vec mk =
         .error (.FormatError .InconsistentSizesEncountered)) := by
  constructor <;> intro hlen <;> simp [shape_vec_to_tensor, hlen]

/-- Witness for C4: a matching 6-element buffer succeeds, a 3-element buffer
for shape (1, 2, 3) fails with the typed size error. -/
theorem shape_vec_to_tensor_size_check_witness :
    shape_vec_to_tensor (1, 2, 3) [10, 20, 30, 40, 50, 60] DecodingResult.U8 =
      .ok ⟨[1, 2, 3], .U8 [10, 20, 30, 40, 50, 60]⟩ ∧
    shape_vec_to_tensor (1, 2, 3) [0, 1, 2] DecodingResult.U8 =
      .error (.FormatError .InconsistentSizesEncountered) :=
  ⟨(shape_vec_to_tensor_size_check 1 2 3 [10, 20, 30, 40, 50, 60] DecodingResult.U8).1
      (by decide),
   (shape_vec_to_tensor_size_check 1 2 3 [0, 1, 2] DecodingResult.U8).2 (by decide)⟩

/-- C5: `num_samples` returns 1 for grayscale, 3 for RGB, the declared sample
count for multiband, and an `UnsupportedColorType` error for every other color
type. -/
theorem num_samples_mapping (s : CogState) (ct : ColorType) (h : s.colortype = .ok ct) :
    (∀ bd, ct = .Gray bd → CogReader.num_samples s = .ok 1) ∧
    (∀ bd, ct = .RGB bd → CogReader.num_samples s = .ok 3) ∧
    (∀ bd n, ct = .Multiband bd n → CogReader.num_samples s = .ok n) ∧
    ((∀ bd, ct ≠ .Gray bd) → (∀ bd, ct ≠ .RGB bd) → (∀ bd n, ct ≠ .Multiband bd n) →
       CogReader.num_samples s =
         .error (.UnsupportedError (.UnsupportedColorType ct))) := by
  refine ⟨?_, ?_, ?_, ?_⟩
  · rintro bd rfl
    simp [CogReader.num_samples, h]
  · rintro bd rfl
    simp [CogReader.num_samples, h]
  · rintro bd n rfl
    simp [CogReader.num_samples, h]
  · intro hG hR hM
    unfold CogReader.num_samples
    rw [h]
    cases ct with
    | Gray bd => exact absurd rfl (hG bd)
    | RGB bd => exact absurd rfl (hR bd)
    | Multiband bd n => exact absurd rfl (hM bd n)
    | Palette bd => rfl
    | GrayA bd => rfl
    | RGBA bd => rfl
    | CMYK bd => rfl
    | YCbCr bd => rfl

/-- Witness for C5: grayscale maps to 1 band; CMYK is refused with the typed
`UnsupportedColorType` error. -/
theorem num_samples_mapping_witness :
    CogReader.num_samples sampleState = .ok 1 ∧
    CogReader.num_samples cmykState =
      .error (.UnsupportedError (.UnsupportedColorType (.CMYK 8))) :=
  ⟨(num_samples_mapping sampleState (.Gray 8) rfl).1 8 rfl,
   (num_samples_mapping cmykState (.CMYK 8) rfl).2.2.2
     (fun _ h => ColorType.noConfusion h)
     (fun _ h => ColorType.noConfusion h)
     (fun _ _ h => ColorType.noConfusion h)⟩

/-- C2: with `ModelTransformationTag` absent, the derived affine transform is
`(a = x_scale, b = 0, c = x_origin, d = 0, e = -y_scale, f = y_origin)` from
the pixel-scale and tiepoint tags. -/
theorem transform_from_scale_and_tiepoint (s : CogState)
    (x_scale y_scale z_scale : ℚ) (rest : List ℚ)
    (i j k x_origin y_origin z_origin : ℚ) (rest2 : List ℚ) (errT : TiffError)
    (hT : s.getTagModelTransformation = .error errT)
    (hS : s.getTagModelPixelScale = .ok (x_scale :: y_scale :: z_scale :: rest))
    (hP : s.getTagModelTiepoint =
      .ok (i :: j :: k :: x_origin :: y_origin :: z_origin :: rest2)) :
    CogReader.transform s =
      .ok { a := x_scale, b := 0, c := x_origin, d := 0, e := -y_scale, f := y_origin } := by
  unfold CogReader.transform
  rw [hT, hS, hP]

/-- Witness for C2 at the spec's concrete numbers: pixel scale (200, 200, 0)
and tiepoint origin (499980, 5300040) give
`(200, 0, 499980, 0, -200, 5300040)`. -/
theorem transform_from_scale_and_tiepoint_witness :
    CogReader.transform sampleState =
      .ok { a := 200, b := 0, c := 499980, d := 0, e := -200, f := 5300040 } :=
  transform_from_scale_and_tiepoint sampleState 200 200 0 [] 0 0 0 499980 5300040 0 []
    (.FormatError .InvalidTag) rfl rfl rfl

/-- C3 counterexample: on a concrete TIFF state with a populated
`ModelTransformationTag`, the transform derivation does not return a typed
error at all — it aborts (the `unimplemented!` panic). -/
theorem transform_rotated_no_typed_error :
    (CogReader.transform rotatedState).isErr = false ∧
    (CogReader.transform rotatedState).isPanic = true :=
  ⟨rfl, rfl⟩

/-- C3 amended: for every TIFF with a populated `ModelTransformationTag`, the
transform derivation aborts with the `unimplemented!` panic "Non-zero rotation
is not handled yet" (so it neither silently drops the rotation terms nor
returns an identity/scale-only transform — but the failure is an abort, not a
typed error value). -/
theorem transform_rotated_unimplemented (s : CogState) (l : List ℚ)
    (h : s.getTagModelTransformation = .ok l) :
    CogReader.transform s = .panic "Non-zero rotation is not handled yet" := by
  unfold CogReader.transform
  rw [h]

/-- Witness for the amended C3 at a concrete rotated state. -/
theorem transform_rotated_unimplemented_witness :
    CogReader.transform rotatedState = .panic "Non-zero rotation is not handled yet" :=
  transform_rotated_unimplemented rotatedState
    [2, 0, 0, 17, 0, 3, 0, 42, 0, 0, 0, 0, 0, 0, 0, 1] rfl

/-- `ndarray::Array::range` over an exact whole number of steps yields exactly
`n` elements `start + step * i`. -/
theorem arrayRange_exact (start step : ℚ) (n : Nat) (hstep : step ≠ 0) :
    arrayRange start (start + step * (n : ℚ)) step =
      .ok ((List.range n).map fun i : Nat => start + step * (i : ℚ)) := by
  unfold arrayRange
  rw [if_neg hstep]
  have h1 : (start + step * (n : ℚ) - start) / step = (n : ℚ) := by
    field_simp
  rw [h1]
  have h2 : ⌈(n : ℚ)⌉ = (n : ℤ) := Int.ceil_natCast n
  rw [h2]
  have h3 : ¬((n : ℤ) < 0) := by exact_mod_cast Nat.not_lt_zero n
  rw [if_neg h3]
  simp

/-- C6: with a derived transform and dimensions `(W, H)` (and nonzero
resolutions), `xy_coords` returns exactly `W` x-coordinates with
`x_coords[i] = c + a/2 + i*a` and exactly `H` y-coordinates with
`y_coords[j] = f + e/2 + j*e`. -/
theorem xy_coords_spec (s : CogState) (t : AffineTransform) (w h : Nat)
    (ht : CogReader.transform s = .ok t)
    (hd : s.dimensions = .ok (w, h))
    (ha : t.a ≠ 0) (he : t.e ≠ 0) :
    ∃ xs ys, CogReader.xy_coords s = .ok (xs, ys) ∧
      xs.length = w ∧ ys.length = h ∧
      (∀ i : Nat, i < w → xs[i]? = some (t.c + t.a / 2 + (i : ℚ) * t.a)) ∧
      (∀ j : Nat, j < h → ys[j]? = some (t.f + t.e / 2 + (j : ℚ) * t.e)) := by
  refine ⟨(List.range w).map fun i : Nat => (t.c + t.a / 2) + t.a * (i : ℚ),
          (List.range h).map fun j : Nat => (t.f + t.e / 2) + t.e * (j : ℚ),
          ?_, ?_, ?_, ?_, ?_⟩
  · simp only [CogReader.xy_coords, ht, hd]
    rw [arrayRange_exact (t.c + t.a / 2) t.a w ha,
        arrayRange_exact (t.f + t.e / 2) t.e h he]
  · simp
  · simp
  · intro i hi
    rw [List.getElem?_map, List.getElem?_range hi]
    simp only [Option.map_some']
    rw [add_assoc, add_assoc, mul_comm]
  · intro j hj
    rw [List.getElem?_map, List.getElem?_range hj]
    simp only [Option.map_some']
    rw [add_assoc, add_assoc, mul_comm]

/-- Witness for C6 at the concrete 3x2 state: three x-coordinates starting at
500080 and two y-coordinates starting at 5299940. -/
theorem xy_coords_spec_witness :
    ∃ xs ys, CogReader.xy_coords sampleState = .ok (xs, ys) ∧
      xs.length = 3 ∧ ys.length = 2 ∧
      (∀ i : Nat, i < 3 →
        xs[i]? = some ((499980 : ℚ) + 200 / 2 + (i : ℚ) * 200)) ∧
      (∀ j : Nat, j < 2 →
        ys[j]? = some ((5300040 : ℚ) + -200 / 2 + (j : ℚ) * -200)) :=
  xy_coords_spec sampleState
    { a := 200, b := 0, c := 499980, d := 0, e := -200, f := 5300040 } 3 2
    rfl rfl (by norm_num) (by norm_num)

/-- C10: whenever `CogReader::dlpack` succeeds with a tensor of element type
`T`, `read_geotiff::<T>` on the same stream succeeds and returns a 3-D array
whose dimensions are the tensor's `(num_samples, height, width)` shape and
whose row-major elements are exactly the tensor's buffer, unmodified. -/
theorem read_geotiff_refines_dlpack (s : CogState) (t : Tensor)
    (h : CogReader.dlpack s = .ok t) :
    ∃ arr : Array3,
      read_geotiff s t.data.dtype = .ok arr ∧
      [arr.dim.1, arr.dim.2.1, arr.dim.2.2] = t.shape ∧
      arr.data = t.data := by
  obtain ⟨c, w, hgt, dr, h1, h2, h3, h4, h5⟩ := dlpack_ok_spec s t h
  refine ⟨⟨(c, hgt, w), dr⟩, ?_, by rw [h4], by rw [h4]⟩
  unfold read_geotiff
  rw [h, h1, h2]
  rw [h4]
  simp [h5]

/-- Witness for C10 at the concrete 3x2 grayscale u8 state. -/
theorem read_geotiff_refines_dlpack_witness :
    ∃ arr : Array3,
      read_geotiff sampleState
          (Tensor.mk [1, 2, 3] (.U8 [10, 20, 30, 40, 50, 60])).data.dtype = .ok arr ∧
      [arr.dim.1, arr.dim.2.1, arr.dim.2.2] =
        (Tensor.mk [1, 2, 3] (.U8 [10, 20, 30, 40, 50, 60])).shape ∧
      arr.data = (Tensor.mk [1, 2, 3] (.U8 [10, 20, 30, 40, 50, 60])).data :=
  read_geotiff_refines_dlpack sampleState ⟨[1, 2, 3], .U8 [10, 20, 30, 40, 50, 60]⟩ rfl

/-- A readable dtype code pins down the sample format and the code. -/
theorem dtypeCodeOfSampleFormat_some (sf : Nat) (code : DataTypeCode)
    (h : dtypeCodeOfSampleFormat sf = some code) :
    (sf = NVTIFF_SAMPLEFORMAT_UINT ∧ code = .UInt) ∨
    (sf = NVTIFF_SAMPLEFORMAT_INT ∧ code = .Int) ∨
    (sf = NVTIFF_SAMPLEFORMAT_IEEEFP ∧ code = .Float) := by
  unfold dtypeCodeOfSampleFormat at h
  split_ifs at h <;> simp_all

/-- Anatomy of a successful `CudaCogReader::new` call. -/
theorem cudaCogReader_new_ok_spec (env : NvTiffEnv) (r : CudaCogReader)
    (effs : List DeviceEffect) (h : CudaCogReader.new env = .ok (r, effs)) :
    env.streamCreate = 0 ∧ env.streamParse = 0 ∧ env.allocOk = true ∧
    ∃ fi, env.getFileInfo = .ok fi ∧
      dtypeCodeOfSampleFormat (fi.sample_format.headD 0) = some r.dtype.code ∧
      fi.samples_per_pixel ≠ 0 ∧
      r.dtype.bits = fi.bits_per_pixel / fi.samples_per_pixel ∧
      r.dtype.lanes = 1 ∧
      r.num_bytes = fi.image_width * fi.image_height * (fi.bits_per_pixel / 8) ∧
      r.cuda_slice.len = r.num_bytes ∧
      effs = [.allocZeros r.num_bytes] := by
  unfold CudaCogReader.new at h
  split at h
  · cases h
  · rename_i hc1
    split at h
    · cases h
    · rename_i hc2
      split at h
      · cases h
      · rename_i fi hfi
        split at h
        · cases h
        · rename_i code hcode
          split at h
          · cases h
          · rename_i hspp
            split at h
            · cases h
            · rename_i hbits
              split at h
              · rename_i halloc
                rw [RustResult.ok.injEq, Prod.mk.injEq] at h
                obtain ⟨hr, heffs⟩ := h
                subst hr
                subst heffs
                exact ⟨by omega, by omega, halloc, fi, hfi, hcode, hspp,
                  rfl, rfl, rfl, rfl, rfl⟩
              · cases h

/-- Anatomy of a successful `CudaCogReader::dlpack` call. -/
theorem cudaCogReader_dlpack_ok_spec (self : CudaCogReader) (env : NvDecodeEnv)
    (t : CudaTensor) (effs : List DeviceEffect)
    (h : CudaCogReader.dlpack self env = .ok (t, effs)) :
    t.dtype = self.dtype ∧ effs = [.decodeImage] := by
  unfold CudaCogReader.dlpack at h
  by_cases h1 : env.decoderCreate ≠ 0
  · rw [if_pos h1] at h; cases h
  rw [if_neg h1] at h
  by_cases h2 : env.checkSupported ≠ 0
  · rw [if_pos h2] at h; cases h
  rw [if_neg h2] at h
  by_cases h3 : env.decodeImage ≠ 0
  · rw [if_pos h3] at h; cases h
  rw [if_neg h3] at h
  by_cases h4 : self.dtype.bits / 8 = 0
  · rw [if_pos h4] at h; cases h
  rw [if_neg h4] at h
  by_cases h5 : self.dtype = DataType.U8
  · rw [if_pos h5] at h
    rw [RustResult.ok.injEq, Prod.mk.injEq] at h
    obtain ⟨ht, heffs⟩ := h
    subst ht
    subst heffs
    exact ⟨rfl, rfl⟩
  rw [if_neg h5] at h
  by_cases h6 : self.dtype = DataType.U16 ∨ self.dtype = DataType.U32 ∨
      self.dtype = DataType.U64 ∨ self.dtype = DataType.I8 ∨
      self.dtype = DataType.I16 ∨ self.dtype = DataType.I32 ∨
      self.dtype = DataType.I64 ∨ self.dtype = DataType.F32 ∨
      self.dtype = DataType.F64
  · rw [if_pos h6] at h
    rw [RustResult.ok.injEq, Prod.mk.injEq] at h
    obtain ⟨ht, heffs⟩ := h
    subst ht
    subst heffs
    exact ⟨rfl, rfl⟩
  · rw [if_neg h6] at h; cases h

/-- C9: whenever GPU construction succeeds, the reader's buffer size is
`width * height * (bits_per_pixel / 8)` and its dtype combines the code
inferred from `sample_format[0]` with element width
`bits_per_pixel / samples_per_pixel`; whenever the GPU decode succeeds, the
resulting tensor reports exactly that inferred dtype. -/
theorem gpu_size_and_dtype_inference :
    (∀ env r effs, CudaCogReader.new env = .ok (r, effs) →
       ∃ fi, env.getFileInfo = .ok fi ∧
         r.num_bytes = fi.image_width * fi.image_height * (fi.bits_per_pixel / 8) ∧
         r.dtype.bits = fi.bits_per_pixel / fi.samples_per_pixel ∧
         dtypeCodeOfSampleFormat (fi.sample_format.headD 0) = some r.dtype.code) ∧
    (∀ self env t effs, CudaCogReader.dlpack self env = .ok (t, effs) →
       t.dtype = self.dtype) := by
  constructor
  · intro env r effs h
    obtain ⟨-, -, -, fi, hfi, hcode, -, hbits, -, hnum, -, -⟩ :=
      cudaCogReader_new_ok_spec env r effs h
    exact ⟨fi, hfi, hnum, hbits, hcode⟩
  · intro self env t effs h
    exact (cudaCogReader_dlpack_ok_spec self env t effs h).1

/-- Witness for C9 at the concrete 2x3 float32 environment. -/
theorem gpu_size_and_dtype_inference_witness :
    (∃ fi, gpuEnv.getFileInfo = .ok fi ∧
       gpuReader.num_bytes = fi.image_width * fi.image_height * (fi.bits_per_pixel / 8) ∧
       gpuReader.dtype.bits = fi.bits_per_pixel / fi.samples_per_pixel ∧
       dtypeCodeOfSampleFormat (fi.sample_format.headD 0) = some gpuReader.dtype.code) ∧
    (CudaTensor.mk [6] DataType.F32).dtype = gpuReader.dtype :=
  ⟨gpu_size_and_dtype_inference.1 gpuEnv gpuReader [.allocZeros 24] rfl,
   gpu_size_and_dtype_inference.2 gpuReader decodeOkEnv ⟨[6], DataType.F32⟩
     [.decodeImage] rfl⟩

/-- C8 counterexample: on a concrete 2x3 float32 byte buffer, construction
already performs a device interaction — it allocates the 24-byte zeroed output
buffer on the device (`alloc_zeros` inside `new`), so device memory is not
left unallocated until decode. -/
theorem new_allocates_device_memory :
    CudaCogReader.new gpuEnv = .ok (gpuReader, [DeviceEffect.allocZeros 24]) ∧
    gpuReader.cuda_slice.len = 24 ∧
    [DeviceEffect.allocZeros 24] ≠ ([] : List DeviceEffect) :=
  ⟨rfl, rfl, by decide⟩

/-- C8 amended: construction parses the TIFF metadata on the host but also
eagerly allocates the zeroed device output buffer of `num_bytes` bytes; only
the hardware decode itself is deferred to the decode call. -/
theorem new_parses_host_and_allocates :
    (∀ env r effs, CudaCogReader.new env = .ok (r, effs) →
       effs = [DeviceEffect.allocZeros r.num_bytes] ∧
       DeviceEffect.decodeImage ∉ effs) ∧
    (∀ self env t effs, CudaCogReader.dlpack self env = .ok (t, effs) →
       DeviceEffect.decodeImage ∈ effs) := by
  constructor
  · intro env r effs h
    obtain ⟨-, -, -, fi, -, -, -, -, -, -, -, heffs⟩ :=
      cudaCogReader_new_ok_spec env r effs h
    subst heffs
    exact ⟨rfl, by simp⟩
  · intro self env t effs h
    rw [(cudaCogReader_dlpack_ok_spec self env t effs h).2]
    simp

/-- Witness for the amended C8 at the concrete 2x3 float32 environment. -/
theorem new_parses_host_and_allocates_witness :
    ([DeviceEffect.allocZeros 24] = [DeviceEffect.allocZeros gpuReader.num_bytes] ∧
     DeviceEffect.decodeImage ∉ [DeviceEffect.allocZeros 24]) ∧
    DeviceEffect.decodeImage ∈ [DeviceEffect.decodeImage] :=
  ⟨new_parses_host_and_allocates.1 gpuEnv gpuReader [.allocZeros 24] rfl,
   new_parses_host_and_allocates.2 gpuReader decodeOkEnv ⟨[6], DataType.F32⟩
     [.decodeImage] rfl⟩

/-- C7 counterexample: the public `xy_coords` entry point reaches an
abort-style failure (the `unimplemented!` panic) on a concrete state with a
populated `ModelTransformationTag`, instead of returning a value or a typed
error. -/
theorem xy_coords_reaches_abort :
    (CogReader.xy_coords rotatedState).isPanic = true := rfl

/-- C7 amended: abort-style failures are reachable from public core entry
points: coordinate derivation aborts whenever `ModelTransformationTag` is
readable, and GPU decoder construction aborts when the device allocation
fails (even with every native status successful and a supported dtype). -/
theorem abort_reachable_from_public_entry_points :
    (∀ s l, s.getTagModelTransformation = .ok l →
       (CogReader.xy_coords s).isPanic = true) ∧
    (∀ env fi, env.streamCreate = 0 → env.streamParse = 0 →
       env.getFileInfo = .ok fi →
       dtypeCodeOfSampleFormat (fi.sample_format.headD 0) ≠ none →
       fi.samples_per_pixel ≠ 0 →
       fi.bits_per_pixel / fi.samples_per_pixel ≤ 255 →
       env.allocOk = false →
       (CudaCogReader.new env).isPanic = true) := by
  constructor
  · intro s l h
    simp [CogReader.xy_coords, CogReader.transform, h, RustResult.isPanic]
  · intro env fi h1 h2 h3 h4 h5 h6 h7
    unfold CudaCogReader.new
    rw [if_neg (by simp [h1]), if_neg (by simp [h2]), h3]
    dsimp only
    cases hcode : dtypeCodeOfSampleFormat (fi.sample_format.headD 0) with
    | none => exact absurd hcode h4
    | some code =>
      dsimp only
      rw [if_neg h5, if_neg (by omega), if_neg (by simp [h7])]
      rfl

/-- Witness for the amended C7 at the concrete rotated state and the concrete
allocation-failure environment. -/
theorem abort_reachable_witness :
    (CogReader.xy_coords rotatedState).isPanic = true ∧
    (CudaCogReader.new allocFailEnv).isPanic = true :=
  ⟨abort_reachable_from_public_entry_points.1 rotatedState
     [2, 0, 0, 17, 0, 3, 0, 42, 0, 0, 0, 0, 0, 0, 0, 1] rfl,
   abort_reachable_from_public_entry_points.2 allocFailEnv
     ⟨2, 3, 1, 32, [3, 0, 0, 0]⟩ rfl rfl rfl (by decide) (by decide) (by decide) rfl⟩
